import Mathlib

/-!
Verification of the linetodo-backend authentication and authorization core.

The TypeScript sources are shallowly embedded as Lean functions:

* The relational store (Prisma/PostgreSQL) is modelled as in-memory lists of
  records inside a `DB` structure; `findUnique` becomes `List.find?`,
  `updateMany` becomes `List.map` guarded by the `where` filter, `create`
  appends a record, and `$transaction` blocks become functions returning
  `Except JsError DB` where an error means the whole transaction rolled back.
* JavaScript `Date` values are integers (milliseconds since epoch); an
  *Invalid Date* (NaN time value) is `Option.none`.  Calendar arithmetic of
  `setDate`/`setHours` is abstracted as adding a fixed number of
  milliseconds per day/hour.  JS `<` on an Invalid Date is always false,
  which `jsDateLt` mirrors.
* Thrown JS `Error` objects carrying ad hoc `statusCode`/`code` fields are a
  `JsError` structure; `try`/`catch` control flow becomes `Except`.
* SHA-256 (`hashRefreshToken`), bcrypt (`verifyPassword`, `hashPassword`)
  and the random token generator are abstracted as explicit function/string
  parameters, so every theorem quantifies over an arbitrary deterministic
  hash/verify function; nothing in the verified logic depends on their
  internals.
-/

namespace LineTodo

/-- Milliseconds in one hour, the unit used for the `h` TTL suffix. -/
def msPerHour : Int := 3600000

/-- Milliseconds in one day, the unit used for the `d` TTL suffix. -/
def msPerDay : Int := 86400000

/-- The digit-prefix part of JS `parseInt(s, 10)`: the longest leading run of
decimal digits, `none` when that run is empty (JS `NaN`). -/
def parseDigits (cs : List Char) : Option Nat :=
  let ds := cs.takeWhile Char.isDigit
  if ds.isEmpty then none
  else some (ds.foldl (fun acc c => acc * 10 + (c.toNat - 48)) 0)

/-- JS `String.prototype.endsWith`, over the character list. -/
def strEndsWith (s suffix : String) : Bool :=
  suffix.data.isSuffixOf s.data

/-- JS `String.prototype.startsWith`, over the character list. -/
def strStartsWith (s pre : String) : Bool :=
  pre.data.isPrefixOf s.data

/-- JS `s.slice(0, -n)`: drop the last `n` characters. -/
def strDropRight (s : String) (n : Nat) : String :=
  String.mk (s.data.take (s.data.length - n))

/-- JS `s.slice(n)`: drop the first `n` characters. -/
def strDrop (s : String) (n : Nat) : String :=
  String.mk (s.data.drop n)

/-- JS `parseInt(s, 10)`: skip leading whitespace, optional sign, then the
longest run of decimal digits; `none` models the `NaN` result. -/
def jsParseInt (s : String) : Option Int :=
  let cs := s.data.dropWhile Char.isWhitespace
  match cs with
  | List.nil => none
  | List.cons c rest =>
    if c = '-' then (parseDigits rest).map (fun n => -(n : Int))
    else if c = '+' then (parseDigits rest).map (fun n => (n : Int))
    else (parseDigits cs).map (fun n => (n : Int))

/-- `getRefreshTokenExpiry` from `src/modules/auth/refreshToken.service.ts`:
a trailing `d` adds `parseInt` days, a trailing `h` adds `parseInt` hours,
anything else defaults to 30 days.  When `parseInt` yields `NaN`
(`jsParseInt = none`) the JS code produces an Invalid Date, modelled as
`none`. -/
def getRefreshTokenExpiry (envExpiry : String) (now : Int) : Option Int :=
  if strEndsWith envExpiry "d" then
    (jsParseInt (strDropRight envExpiry 1)).map (fun days => now + days * msPerDay)
  else if strEndsWith envExpiry "h" then
    (jsParseInt (strDropRight envExpiry 1)).map (fun hours => now + hours * msPerHour)
  else
    some (now + 30 * msPerDay)

/-- A row of the `users` table. -/
structure UserRec where
  id : String
  email : String
  passwordHash : String
  name : Option String
deriving DecidableEq, Repr

/-- A row of the `refresh_tokens` table.  `expiresAt = none` is an Invalid
Date stored by the NaN expiry path. -/
structure TokenRecord where
  id : Nat
  userId : String
  tokenHash : String
  expiresAt : Option Int
  revokedAt : Option Int
deriving DecidableEq, Repr

/-- A row of the `workspace_members` table; `role` is the string value of the
Prisma `WorkspaceRole` enum. -/
structure WorkspaceMember where
  workspaceId : String
  userId : String
  role : String
deriving DecidableEq, Repr

/-- The shared database state touched by the auth core. -/
structure DB where
  users : List UserRec
  tokens : List TokenRecord
  nextId : Nat
deriving DecidableEq, Repr

/-- A thrown JS `Error` with the repository's bolted-on optional
`statusCode` (HTTP classification) and `code` (driver/Prisma error code). -/
structure JsError where
  message : String
  code : Option String
  statusCode : Option Nat
deriving DecidableEq, Repr

/-- `prisma.refreshToken.findUnique({ where: { tokenHash } })`. -/
def tokenLookup (db : DB) (tokenHash : String) : Option TokenRecord :=
  db.tokens.find? (fun t => t.tokenHash == tokenHash)

/-- `prisma.user.findUnique({ where: { id } })`. -/
def userById (db : DB) (userId : String) : Option UserRec :=
  db.users.find? (fun u => u.id == userId)

/-- `prisma.user.findUnique({ where: { email } })`. -/
def userByEmail (db : DB) (email : String) : Option UserRec :=
  db.users.find? (fun u => u.email == email)

/-- JS `date < now` where `date` may be an Invalid Date: every comparison
with NaN is false. -/
def jsDateLt (d : Option Int) (now : Int) : Bool :=
  match d with
  | none => false
  | some x => decide (x < now)

/-- The validity filter of `findRefreshToken`: drop the record when it is
absent, expired (`expiresAt < new Date()`), or revoked (`revokedAt` set). -/
def filterValidToken : Option TokenRecord → Int → Option TokenRecord
  | none, _ => none
  | some tok, now =>
    if jsDateLt tok.expiresAt now then none
    else if tok.revokedAt.isSome then none
    else some tok

/-- `findRefreshToken` from `refreshToken.service.ts`.  `raw` is the outcome
of the underlying `findUnique` call: either the (optional) row or a thrown
error.  Connection errors (`ECONNREFUSED`/`ETIMEDOUT`/`ENOTFOUND`) are
swallowed into `none` (fail closed); every other error is re-thrown. -/
def findRefreshToken (raw : Except JsError (Option TokenRecord)) (now : Int) :
    Except JsError (Option TokenRecord) :=
  match raw with
  | Except.ok t => Except.ok (filterValidToken t now)
  | Except.error e =>
    match e.code with
    | some c =>
      if c = "ECONNREFUSED" ∨ c = "ETIMEDOUT" ∨ c = "ENOTFOUND" then Except.ok none
      else Except.error e
    | none => Except.error e

/-- `revokeRefreshToken`: `updateMany` setting `revokedAt` on the rows whose
`tokenHash` matches and whose `revokedAt` is still null. -/
def revokeRefreshToken (db : DB) (tokenHash : String) (now : Int) : DB :=
  { db with tokens := db.tokens.map (fun t =>
      if t.tokenHash = tokenHash ∧ t.revokedAt = none then
        { t with revokedAt := some now }
      else t) }

/-- `revokeAllUserTokens`: `updateMany` setting `revokedAt` on every
still-active row of one user. -/
def revokeAllUserTokens (db : DB) (userId : String) (now : Int) : DB :=
  { db with tokens := db.tokens.map (fun t =>
      if t.userId = userId ∧ t.revokedAt = none then
        { t with revokedAt := some now }
      else t) }

/-- The 404 error `createRefreshToken` raises for the Prisma `P2003`
foreign-key violation (user does not exist). -/
def userNotFoundError : JsError :=
  { message := "User not found", code := none, statusCode := some 404 }

/-- `createRefreshToken`: hash the secret, compute the expiry and insert.
A missing user surfaces as the 404 `userNotFoundError` (the `P2003`
handler); a duplicate `tokenHash` violates the schema's unique constraint
and is re-thrown untranslated (Prisma `P2002`). -/
def createRefreshToken (db : DB) (userId token envExpiry : String) (now : Int)
    (hashFn : String → String) : Except JsError (DB × TokenRecord) :=
  let tokenHash := hashFn token
  let expiresAt := getRefreshTokenExpiry envExpiry now
  if (userById db userId).isSome then
    if db.tokens.any (fun t => t.tokenHash == tokenHash) then
      Except.error { message := "Unique constraint failed on the fields: (tokenHash)",
                     code := some "P2002", statusCode := none }
    else
      let newRec : TokenRecord :=
        { id := db.nextId, userId := userId, tokenHash := tokenHash,
          expiresAt := expiresAt, revokedAt := none }
      Except.ok ({ db with tokens := db.tokens ++ [newRec], nextId := db.nextId + 1 }, newRec)
  else
    Except.error userNotFoundError

/-- `rotateRefreshToken`: revoke the old hash then create the new token,
inside one `$transaction` (an error rolls the whole thing back, which the
`Except` encoding captures by not producing a new `DB`). -/
def rotateRefreshToken (db : DB) (oldTokenHash newToken userId envExpiry : String)
    (now : Int) (hashFn : String → String) : Except JsError (DB × TokenRecord) :=
  let db1 := revokeRefreshToken db oldTokenHash now
  createRefreshToken db1 userId newToken envExpiry now hashFn

/-- The `{userId, email}` payload of a signed access token.  Signature and
expiry of JWTs are outside the modelled boundary, so an access token is
represented by its verified payload. -/
structure AuthUser where
  userId : String
  email : String
deriving DecidableEq, Repr

/-- `generateAccessToken`: sign the `{userId, email}` payload. -/
def generateAccessToken (userId email : String) : AuthUser :=
  { userId := userId, email := email }

/-- The body returned by a successful `refresh`. -/
structure RefreshResponse where
  accessToken : AuthUser
  refreshToken : String
deriving DecidableEq, Repr

/-- The body returned by a successful `login`. -/
structure AuthResponse where
  user : UserRec
  accessToken : AuthUser
  refreshToken : String
deriving DecidableEq, Repr

/-- The generic 401 thrown by `login` for both a missing user and a wrong
password. -/
def invalidCredentialsError : JsError :=
  { message := "Invalid email or password", code := none, statusCode := some 401 }

/-- The 401 thrown by `refresh` for an invalid, expired or revoked token
(also used when the token lookup itself throws). -/
def invalidRefreshError : JsError :=
  { message := "Invalid or expired refresh token", code := none, statusCode := some 401 }

/-- `login` from `src/modules/auth/service.ts`.  `verifyFn` abstracts
bcrypt's `verifyPassword(plaintext, digest)` and `newRefreshToken` the
random secret from `generateRefreshToken()`. -/
def login (db : DB) (email password newRefreshToken envExpiry : String) (now : Int)
    (hashFn : String → String) (verifyFn : String → String → Bool) :
    Except JsError (DB × AuthResponse) :=
  match userByEmail db email with
  | none => Except.error invalidCredentialsError
  | some user =>
    if verifyFn password user.passwordHash then
      match createRefreshToken db user.id newRefreshToken envExpiry now hashFn with
      | Except.error e =>
        if e.statusCode.isSome then Except.error e
        else Except.error { message := "Failed to create refresh token",
                            code := none, statusCode := some 500 }
      | Except.ok (db2, _) =>
        Except.ok (db2, { user := user,
                          accessToken := generateAccessToken user.id user.email,
                          refreshToken := newRefreshToken })
    else Except.error invalidCredentialsError

/-- `refresh` from `src/modules/auth/service.ts`: hash the presented secret,
look it up through `findRefreshToken` (any thrown lookup error is caught and
converted to the 401), load the user, then rotate atomically. -/
def refresh (db : DB) (refreshToken newRefreshToken envExpiry : String) (now : Int)
    (hashFn : String → String) : Except JsError (DB × RefreshResponse) :=
  let tokenHash := hashFn refreshToken
  match findRefreshToken (Except.ok (tokenLookup db tokenHash)) now with
  | Except.error _ => Except.error invalidRefreshError
  | Except.ok none => Except.error invalidRefreshError
  | Except.ok (some tokenRec) =>
    match userById db tokenRec.userId with
    | none => Except.error userNotFoundError
    | some user =>
      match rotateRefreshToken db tokenHash newRefreshToken user.id envExpiry now hashFn with
      | Except.error e => Except.error e
      | Except.ok (db2, _) =>
        Except.ok (db2, { accessToken := generateAccessToken user.id user.email,
                          refreshToken := newRefreshToken })

/-- `logout`: revoke the hash of the presented token; idempotent, never an
error. -/
def logout (db : DB) (refreshToken : String) (now : Int)
    (hashFn : String → String) : DB :=
  revokeRefreshToken db (hashFn refreshToken) now

/-- `changeUserPassword` from the users service: verify the current
password (400 `Current password is incorrect` on mismatch), then update the
hash and revoke all of the user's refresh tokens in one `$transaction`. -/
def changeUserPassword (db : DB) (userId currentPassword newPassword : String)
    (now : Int) (verifyFn : String → String → Bool)
    (hashPasswordFn : String → String) : Except JsError DB :=
  match userById db userId with
  | none => Except.error userNotFoundError
  | some user =>
    if verifyFn currentPassword user.passwordHash then
      let db1 := { db with users := db.users.map (fun u =>
        if u.id = userId then { u with passwordHash := hashPasswordFn newPassword }
        else u) }
      Except.ok (revokeAllUserTokens db1 userId now)
    else
      Except.error { message := "Current password is incorrect",
                     code := none, statusCode := some 400 }

/-- The outcome of an Express middleware: short-circuit with a response /
error, or attach data to the request and call `next()`. -/
inductive MwOutcome where
  | reject (statusCode : Nat) (message : String)
  | proceed (user : AuthUser)
deriving DecidableEq, Repr

/-- The incoming request as far as the authentication check reads it. -/
structure HttpRequest where
  authorization : Option String
deriving DecidableEq, Repr

/-- `authMiddleware` from `src/middleware/auth.ts` as committed: a
placeholder that responds 401 `Unauthorized` to every request (its body is
a TODO; `requireAuth` aliases it). -/
def authMiddleware (_req : HttpRequest) : MwOutcome :=
  MwOutcome.reject 401 "Unauthorized"

/-- Modelled from the spec: the implemented authentication check is absent
from the sources (only the TODO placeholder, its alias `requireAuth`, the
consumers of `req.user` and the tests remain), so this follows §4.5 of the
spec: require `Authorization: Bearer <token>`; missing/malformed header →
401 `Missing or invalid authorization header`; `verifyAccessToken` failure
→ 401 `Invalid or expired token`; otherwise attach the `{id, email}`
payload. -/
def authMiddlewareSpec (verifyFn : String → Option AuthUser) (req : HttpRequest) :
    MwOutcome :=
  match req.authorization with
  | none => MwOutcome.reject 401 "Missing or invalid authorization header"
  | some header =>
    if strStartsWith header "Bearer " then
      match verifyFn (strDrop header 7) with
      | none => MwOutcome.reject 401 "Invalid or expired token"
      | some payload => MwOutcome.proceed payload
    else MwOutcome.reject 401 "Missing or invalid authorization header"

/-- `getRoleHierarchy`: OWNER=3, ADMIN=2, MEMBER=1, default=0.  The switch
is on the enum's string value, so the model takes a `String`. -/
def getRoleHierarchy (role : String) : Nat :=
  if role = "OWNER" then 3
  else if role = "ADMIN" then 2
  else if role = "MEMBER" then 1
  else 0

/-- `prisma.workspaceMember.findUnique({ where: { workspaceId_userId } })`. -/
def memberLookup (members : List WorkspaceMember) (workspaceId userId : String) :
    Option WorkspaceMember :=
  members.find? (fun m => m.workspaceId == workspaceId && m.userId == userId)

/-- Outcome of the workspace role middleware. -/
inductive RoleCheckOutcome where
  | reject (statusCode : Nat) (message : String)
  | allow (member : WorkspaceMember)
deriving DecidableEq, Repr

/-- `requireWorkspaceRole` from the workspace middleware: 401 without an
authenticated user, 403 without a membership, 403 when the member's numeric
role rank is below the required minimum, otherwise attach the membership. -/
def requireWorkspaceRole (members : List WorkspaceMember) (workspaceId minRole : String)
    (reqUser : Option AuthUser) : RoleCheckOutcome :=
  match reqUser with
  | none => RoleCheckOutcome.reject 401 "Unauthorized"
  | some user =>
    match memberLookup members workspaceId user.userId with
    | none => RoleCheckOutcome.reject 403 "Forbidden: You are not a member of this workspace"
    | some membership =>
      if getRoleHierarchy membership.role < getRoleHierarchy minRole then
        RoleCheckOutcome.reject 403
          ("Forbidden: Insufficient role. Required: " ++ minRole ++
            ", Current: " ++ membership.role)
      else RoleCheckOutcome.allow membership

/-- `prisma.workspaceMember.count({ where: { workspaceId, role: 'OWNER' } })`. -/
def ownerCount (members : List WorkspaceMember) (workspaceId : String) : Nat :=
  (members.filter (fun m => m.workspaceId == workspaceId && m.role == "OWNER")).length

/-- `removeMember` from `src/modules/workspaces/service.ts`: permission gate
(403 below ADMIN), target existence (404), refusal to let an OWNER remove
themself (400), refusal to remove the last OWNER (400), then delete. -/
def removeMember (members : List WorkspaceMember)
    (workspaceId targetUserId removerId : String) :
    Except JsError (List WorkspaceMember) :=
  match memberLookup members workspaceId removerId with
  | none => Except.error { message := "You are not a member of this workspace",
                           code := none, statusCode := some 403 }
  | some removerMembership =>
    if getRoleHierarchy removerMembership.role < getRoleHierarchy "ADMIN" then
      Except.error { message := "Insufficient permissions to remove members",
                     code := none, statusCode := some 403 }
    else
      match memberLookup members workspaceId targetUserId with
      | none => Except.error { message := "Member not found",
                               code := none, statusCode := some 404 }
      | some targetMembership =>
        if targetUserId = removerId ∧ targetMembership.role = "OWNER" then
          Except.error { message := "Cannot remove yourself as OWNER",
                         code := none, statusCode := some 400 }
        else if targetMembership.role = "OWNER" ∧ ownerCount members workspaceId = 1 then
          Except.error { message := "Cannot remove the last OWNER",
                         code := none, statusCode := some 400 }
        else
          Except.ok (members.filter (fun m =>
            !(m.workspaceId == workspaceId && m.userId == targetUserId)))

/-- `updateMemberRole` from `src/modules/workspaces/service.ts`.  The source
has two identical `role === 'OWNER' && input.role !== 'OWNER'` guards; the
first throws 400 `Cannot change OWNER role`, which makes the second
(`Cannot downgrade the last OWNER`) unreachable, and both are kept here. -/
def updateMemberRole (members : List WorkspaceMember)
    (workspaceId targetUserId newRole updaterId : String) :
    Except JsError (List WorkspaceMember) :=
  match memberLookup members workspaceId updaterId with
  | none => Except.error { message := "You are not a member of this workspace",
                           code := none, statusCode := some 403 }
  | some updaterMembership =>
    if getRoleHierarchy updaterMembership.role < getRoleHierarchy "ADMIN" then
      Except.error { message := "Insufficient permissions to update member roles",
                     code := none, statusCode := some 403 }
    else
      match memberLookup members workspaceId targetUserId with
      | none => Except.error { message := "Member not found",
                               code := none, statusCode := some 404 }
      | some targetMembership =>
        if targetMembership.role = "OWNER" ∧ newRole ≠ "OWNER" then
          Except.error { message := "Cannot change OWNER role",
                         code := none, statusCode := some 400 }
        else if targetMembership.role = "OWNER" ∧ newRole ≠ "OWNER" ∧
            ownerCount members workspaceId = 1 then
          Except.error { message := "Cannot downgrade the last OWNER",
                         code := none, statusCode := some 400 }
        else
          Except.ok (members.map (fun m =>
            if m.workspaceId == workspaceId && m.userId == targetUserId then
              { m with role := newRole }
            else m))

/-- The HTTP classification, if any, of a service result. -/
def errStatus {α : Type} : Except JsError α → Option Nat
  | Except.error e => e.statusCode
  | Except.ok _ => none

/-- Program counter of one in-flight `refresh` call.  The call performs two
database interactions: the validated lookup (token row + user row, read
outside any transaction) and the rotation transaction.  `ready` holds the
values read by the first interaction. -/
inductive RefreshPhase where
  | start
  | ready (tokenRec : TokenRecord) (user : UserRec)
  | finished (result : Except JsError RefreshResponse)
deriving Repr

/-- One in-flight `refresh` call. -/
structure RefreshCall where
  refreshToken : String
  newRefreshToken : String
  phase : RefreshPhase
deriving Repr

/-- Run the next atomic database interaction of one `refresh` call, exactly
as `refresh` sequences them: first the `findRefreshToken` lookup plus the
user load, then the `rotateRefreshToken` transaction. -/
def stepRefreshCall (db : DB) (c : RefreshCall) (envExpiry : String) (now : Int)
    (hashFn : String → String) : DB × RefreshCall :=
  match c.phase with
  | RefreshPhase.finished _ => (db, c)
  | RefreshPhase.start =>
    match findRefreshToken (Except.ok (tokenLookup db (hashFn c.refreshToken))) now with
    | Except.error _ =>
      (db, { c with phase := RefreshPhase.finished (Except.error invalidRefreshError) })
    | Except.ok none =>
      (db, { c with phase := RefreshPhase.finished (Except.error invalidRefreshError) })
    | Except.ok (some tokenRec) =>
      match userById db tokenRec.userId with
      | none => (db, { c with phase := RefreshPhase.finished (Except.error userNotFoundError) })
      | some user => (db, { c with phase := RefreshPhase.ready tokenRec user })
  | RefreshPhase.ready _ user =>
    match rotateRefreshToken db (hashFn c.refreshToken) c.newRefreshToken user.id
        envExpiry now hashFn with
    | Except.error e => (db, { c with phase := RefreshPhase.finished (Except.error e) })
    | Except.ok (db2, _) =>
      (db2, { c with phase := RefreshPhase.finished (Except.ok
        { accessToken := generateAccessToken user.id user.email,
          refreshToken := c.newRefreshToken }) })

/-- Interleave two `refresh` calls: `true` entries run the next step of call
`a`, `false` entries of call `b`.  The database is the shared state; each
step is one atomic database interaction. -/
def runSchedule (envExpiry : String) (now : Int) (hashFn : String → String) :
    List Bool → DB → RefreshCall → RefreshCall → DB × RefreshCall × RefreshCall
  | List.nil, db, a, b => (db, a, b)
  | List.cons pick rest, db, a, b =>
    if pick then
      let p := stepRefreshCall db a envExpiry now hashFn
      runSchedule envExpiry now hashFn rest p.1 p.2 b
    else
      let p := stepRefreshCall db b envExpiry now hashFn
      runSchedule envExpiry now hashFn rest p.1 a p.2

/-- Whether a call has finished successfully. -/
def callSucceeded (c : RefreshCall) : Bool :=
  match c.phase with
  | RefreshPhase.finished (Except.ok _) => true
  | _ => false

/-- Whether a call has finished with an error of the given status. -/
def callFailedWith (c : RefreshCall) (status : Nat) : Bool :=
  match c.phase with
  | RefreshPhase.finished (Except.error e) => e.statusCode == some status
  | _ => false

/-! Helper lemmas shared by the claim theorems. -/

theorem find?_map_tokenHash (l : List TokenRecord) (f : TokenRecord → TokenRecord)
    (hf : ∀ t, (f t).tokenHash = t.tokenHash) (h : String) :
    (l.map f).find? (fun t => t.tokenHash == h) =
      (l.find? (fun t => t.tokenHash == h)).map f := by
  induction l with
  | nil => rfl
  | cons t ts ih =>
    by_cases hb : t.tokenHash = h
    · rw [List.map_cons, List.find?_cons_of_pos, List.find?_cons_of_pos]
      · rfl
      · simpa using hb
      · simpa [hf t] using hb
    · rw [List.map_cons, List.find?_cons_of_neg, List.find?_cons_of_neg]
      · exact ih
      · simpa using hb
      · simpa [hf t] using hb

theorem any_map_tokenHash (l : List TokenRecord) (f : TokenRecord → TokenRecord)
    (hf : ∀ t, (f t).tokenHash = t.tokenHash) (h : String) :
    (l.map f).any (fun t => t.tokenHash == h) = l.any (fun t => t.tokenHash == h) := by
  induction l with
  | nil => rfl
  | cons t ts ih => simp [List.any_cons, hf t, ih]

theorem revokeFn_tokenHash (h : String) (now : Int) (t : TokenRecord) :
    ((fun t : TokenRecord =>
      if t.tokenHash = h ∧ t.revokedAt = none then { t with revokedAt := some now }
      else t) t).tokenHash = t.tokenHash := by
  by_cases hc : t.tokenHash = h ∧ t.revokedAt = none <;> simp [hc]

theorem tokenLookup_revoke (db : DB) (h h2 : String) (now : Int) :
    tokenLookup (revokeRefreshToken db h now) h2 =
      (tokenLookup db h2).map (fun t =>
        if t.tokenHash = h ∧ t.revokedAt = none then { t with revokedAt := some now }
        else t) :=
  find?_map_tokenHash db.tokens _ (revokeFn_tokenHash h now) h2

theorem filterValidToken_eq_some (t? : Option TokenRecord) (now : Int) (r : TokenRecord) :
    filterValidToken t? now = some r ↔
      t? = some r ∧ jsDateLt r.expiresAt now = false ∧ r.revokedAt = none := by
  cases t? with
  | none => simp [filterValidToken]
  | some tok =>
    constructor
    · intro hx
      simp only [filterValidToken] at hx
      by_cases he : jsDateLt tok.expiresAt now = true
      · rw [if_pos he] at hx
        cases hx
      · rw [if_neg he] at hx
        by_cases hrev : tok.revokedAt.isSome = true
        · rw [if_pos hrev] at hx
          cases hx
        · rw [if_neg hrev] at hx
          injection hx with hx
          subst hx
          exact ⟨rfl, by simpa using he,
            by simpa [Option.isSome_iff_ne_none] using hrev⟩
    · rintro ⟨hr, he, hrev⟩
      injection hr with hr
      subst hr
      simp only [filterValidToken]
      rw [if_neg (by simp [he]), if_neg (by simp [hrev])]

theorem filterValidToken_of_revoked (tok : TokenRecord) (now : Int)
    (hrev : tok.revokedAt ≠ none) :
    filterValidToken (some tok) now = none := by
  unfold filterValidToken
  have : tok.revokedAt.isSome = true := Option.isSome_iff_ne_none.mpr hrev
  by_cases he : jsDateLt tok.expiresAt now <;> simp [he, this]

theorem refresh_eq_match (db : DB) (tok newTok envExpiry : String) (now : Int)
    (hashFn : String → String) :
    refresh db tok newTok envExpiry now hashFn =
      match filterValidToken (tokenLookup db (hashFn tok)) now with
      | none => Except.error invalidRefreshError
      | some tokenRec =>
        match userById db tokenRec.userId with
        | none => Except.error userNotFoundError
        | some user =>
          match rotateRefreshToken db (hashFn tok) newTok user.id envExpiry now hashFn with
          | Except.error e => Except.error e
          | Except.ok (db2, _) =>
            Except.ok (db2, { accessToken := generateAccessToken user.id user.email,
                              refreshToken := newTok }) := by
  have hfr : findRefreshToken (Except.ok (tokenLookup db (hashFn tok))) now =
      Except.ok (filterValidToken (tokenLookup db (hashFn tok)) now) := rfl
  unfold refresh
  simp only [hfr]
  cases filterValidToken (tokenLookup db (hashFn tok)) now <;> rfl

theorem refresh_of_revoked (db : DB) (tok newTok envExpiry : String) (now : Int)
    (hashFn : String → String) (tokenRec : TokenRecord)
    (hlook : tokenLookup db (hashFn tok) = some tokenRec)
    (hrev : tokenRec.revokedAt ≠ none) :
    refresh db tok newTok envExpiry now hashFn = Except.error invalidRefreshError := by
  rw [refresh_eq_match, hlook, filterValidToken_of_revoked tokenRec now hrev]

theorem logout_tokenLookup (db : DB) (tok h2 : String) (now : Int)
    (hashFn : String → String) :
    tokenLookup (logout db tok now hashFn) h2 =
      (tokenLookup db h2).map (fun t =>
        if t.tokenHash = hashFn tok ∧ t.revokedAt = none then { t with revokedAt := some now }
        else t) :=
  tokenLookup_revoke db (hashFn tok) h2 now

theorem refresh_after_logout (db : DB) (tok newTok envExpiry : String) (now now2 : Int)
    (hashFn : String → String) :
    refresh (logout db tok now hashFn) tok newTok envExpiry now2 hashFn =
      Except.error invalidRefreshError := by
  cases hlook : tokenLookup db (hashFn tok) with
  | none =>
    have h2 : tokenLookup (logout db tok now hashFn) (hashFn tok) = none := by
      rw [logout_tokenLookup, hlook]
      rfl
    rw [refresh_eq_match, h2]
    rfl
  | some tokenRec =>
    have hhash : tokenRec.tokenHash = hashFn tok := by
      have := List.find?_some hlook
      simpa using this
    have h2 : tokenLookup (logout db tok now hashFn) (hashFn tok) =
        some (if tokenRec.tokenHash = hashFn tok ∧ tokenRec.revokedAt = none then
          { tokenRec with revokedAt := some now } else tokenRec) := by
      rw [logout_tokenLookup, hlook]
      rfl
    by_cases hrev : tokenRec.revokedAt = none
    · rw [if_pos ⟨hhash, hrev⟩] at h2
      exact refresh_of_revoked _ tok newTok envExpiry now2 hashFn _ h2 (by simp)
    · rw [if_neg (by simp [hrev])] at h2
      exact refresh_of_revoked _ tok newTok envExpiry now2 hashFn _ h2 hrev

theorem createRefreshToken_ok (db : DB) (userId token envExpiry : String) (now : Int)
    (hashFn : String → String)
    (huser : (userById db userId).isSome = true)
    (hfresh : db.tokens.any (fun t => t.tokenHash == hashFn token) = false) :
    createRefreshToken db userId token envExpiry now hashFn =
      Except.ok
        ({ db with
            tokens := db.tokens ++
              [{ id := db.nextId, userId := userId, tokenHash := hashFn token,
                  expiresAt := getRefreshTokenExpiry envExpiry now, revokedAt := none }],
            nextId := db.nextId + 1 },
          { id := db.nextId, userId := userId, tokenHash := hashFn token,
            expiresAt := getRefreshTokenExpiry envExpiry now, revokedAt := none }) := by
  unfold createRefreshToken
  rw [if_pos huser, if_neg (by simp [hfresh])]

theorem revoke_users (db : DB) (h : String) (now : Int) :
    (revokeRefreshToken db h now).users = db.users := rfl

theorem revoke_nextId (db : DB) (h : String) (now : Int) :
    (revokeRefreshToken db h now).nextId = db.nextId := rfl

theorem revoke_userById (db : DB) (h uid : String) (now : Int) :
    userById (revokeRefreshToken db h now) uid = userById db uid := rfl

theorem revoke_any_tokenHash (db : DB) (h h2 : String) (now : Int) :
    (revokeRefreshToken db h now).tokens.any (fun t => t.tokenHash == h2) =
      db.tokens.any (fun t => t.tokenHash == h2) :=
  any_map_tokenHash db.tokens _ (revokeFn_tokenHash h now) h2

theorem rotateRefreshToken_ok (db : DB) (oldHash newTok userId envExpiry : String)
    (now : Int) (hashFn : String → String)
    (huser : (userById db userId).isSome = true)
    (hfresh : db.tokens.any (fun t => t.tokenHash == hashFn newTok) = false) :
    rotateRefreshToken db oldHash newTok userId envExpiry now hashFn =
      Except.ok
        ({ revokeRefreshToken db oldHash now with
            tokens := (revokeRefreshToken db oldHash now).tokens ++
              [{ id := db.nextId, userId := userId, tokenHash := hashFn newTok,
                  expiresAt := getRefreshTokenExpiry envExpiry now, revokedAt := none }],
            nextId := db.nextId + 1 },
          { id := db.nextId, userId := userId, tokenHash := hashFn newTok,
            expiresAt := getRefreshTokenExpiry envExpiry now, revokedAt := none }) := by
  have h1 : (userById (revokeRefreshToken db oldHash now) userId).isSome = true := by
    rw [revoke_userById]
    exact huser
  have h2 : ((revokeRefreshToken db oldHash now).tokens.any
      (fun t => t.tokenHash == hashFn newTok)) = false := by
    rw [revoke_any_tokenHash]
    exact hfresh
  unfold rotateRefreshToken
  rw [createRefreshToken_ok _ _ _ _ _ _ h1 h2]
  rfl

theorem refresh_ok_state (db db2 : DB) (tok newTok envExpiry : String) (now : Int)
    (hashFn : String → String) (resp : RefreshResponse)
    (hok : refresh db tok newTok envExpiry now hashFn = Except.ok (db2, resp)) :
    ∃ tokenRec : TokenRecord,
      tokenLookup db (hashFn tok) = some tokenRec ∧ tokenRec.revokedAt = none ∧
      tokenLookup db2 (hashFn tok) = some { tokenRec with revokedAt := some now } := by
  rw [refresh_eq_match] at hok
  cases hfv : filterValidToken (tokenLookup db (hashFn tok)) now with
  | none =>
    rw [hfv] at hok
    cases hok
  | some tokenRec =>
    rw [hfv] at hok
    obtain ⟨hlook, _, hrev⟩ := (filterValidToken_eq_some _ now tokenRec).mp hfv
    refine ⟨tokenRec, hlook, hrev, ?_⟩
    have hhash : tokenRec.tokenHash = hashFn tok := by
      have := List.find?_some hlook
      simpa using this
    cases huser : userById db tokenRec.userId with
    | none =>
      simp only [huser] at hok
      cases hok
    | some user =>
      simp only [huser] at hok
      cases hrot : rotateRefreshToken db (hashFn tok) newTok user.id envExpiry now hashFn with
      | error e =>
        simp only [hrot] at hok
        cases hok
      | ok pair =>
        simp only [hrot] at hok
        injection hok with hok1
        have hdb2 : pair.1 = db2 := congrArg Prod.fst hok1
        -- analyse the rotation transaction to expose the shape of pair.1
        have hshape : ∃ restTokens : List TokenRecord,
            pair.1.tokens = (revokeRefreshToken db (hashFn tok) now).tokens ++ restTokens := by
          unfold rotateRefreshToken createRefreshToken at hrot
          by_cases hu : ((userById (revokeRefreshToken db (hashFn tok) now) user.id).isSome = true)
          · rw [if_pos hu] at hrot
            by_cases hdup : ((revokeRefreshToken db (hashFn tok) now).tokens.any
                (fun t => t.tokenHash == hashFn newTok) = true)
            · rw [if_pos hdup] at hrot
              cases hrot
            · rw [if_neg hdup] at hrot
              injection hrot with hrot
              exact ⟨_, by rw [← hrot]⟩
          · rw [if_neg hu] at hrot
            cases hrot
        obtain ⟨restTokens, htokens⟩ := hshape
        rw [← hdb2]
        have hlook2 : List.find? (fun t => t.tokenHash == hashFn tok) db.tokens =
            some tokenRec := hlook
        have hfirst : (revokeRefreshToken db (hashFn tok) now).tokens.find?
            (fun t => t.tokenHash == hashFn tok) =
            some { tokenRec with revokedAt := some now } := by
          have hrw := tokenLookup_revoke db (hashFn tok) (hashFn tok) now
          unfold tokenLookup at hrw
          rw [hrw, hlook2]
          simp [hhash, hrev]
        unfold tokenLookup
        rw [htokens, List.find?_append, hfirst]
        rfl

theorem revokeAll_mem (db : DB) (uid : String) (now : Int) (t : TokenRecord)
    (ht : t ∈ (revokeAllUserTokens db uid now).tokens) (huid : t.userId = uid) :
    t.revokedAt ≠ none := by
  unfold revokeAllUserTokens at ht
  simp only [List.mem_map] at ht
  obtain ⟨a, _, ha⟩ := ht
  by_cases hc : a.userId = uid ∧ a.revokedAt = none
  · rw [if_pos hc] at ha
    rw [← ha]
    simp
  · rw [if_neg hc] at ha
    subst ha
    intro hnone
    exact hc ⟨huid, hnone⟩

/-! The claim theorems, with concrete sample data for their witnesses. -/

/-- A sample deterministic stand-in for the SHA-256 token hash. -/
def sampleHash : String → String := fun s => "h:" ++ s

/-- A sample stored user. -/
def sampleUser : UserRec :=
  { id := "u1", email := "u1@example.com", passwordHash := "pw1", name := none }

/-- A sample refresh-token row that has already been revoked. -/
def sampleRevokedToken : TokenRecord :=
  { id := 1, userId := "u1", tokenHash := "h:t0", expiresAt := some 1000, revokedAt := some 3 }

/-- A sample database whose only refresh token is revoked. -/
def sampleDbRevoked : DB :=
  { users := [sampleUser], tokens := [sampleRevokedToken], nextId := 2 }

/-- A sample refresh-token row that is still active at time 5. -/
def sampleActiveToken : TokenRecord :=
  { id := 1, userId := "u1", tokenHash := "h:t0", expiresAt := some 1000, revokedAt := none }

/-- A sample database whose only refresh token is active. -/
def sampleDbActive : DB :=
  { users := [sampleUser], tokens := [sampleActiveToken], nextId := 2 }

/-- C1: for every refresh token whose stored record has been revoked —
whether by a prior successful refresh rotation or by logout — a subsequent
`refresh` with that original token fails with the status-401
`Invalid or expired refresh token` error, because the validity filter of the
store lookup drops revoked rows. -/
theorem refresh_revoked_token_unauthorized
    (db : DB) (tok newTok newTok2 envExpiry : String) (now now2 : Int)
    (hashFn : String → String) :
    (∀ tokenRec : TokenRecord,
        tokenLookup db (hashFn tok) = some tokenRec → tokenRec.revokedAt ≠ none →
        refresh db tok newTok envExpiry now2 hashFn = Except.error invalidRefreshError)
    ∧ (∀ (db2 : DB) (resp : RefreshResponse),
        refresh db tok newTok envExpiry now hashFn = Except.ok (db2, resp) →
        refresh db2 tok newTok2 envExpiry now2 hashFn = Except.error invalidRefreshError)
    ∧ refresh (logout db tok now hashFn) tok newTok envExpiry now2 hashFn =
        Except.error invalidRefreshError := by
  refine ⟨?_, ?_, ?_⟩
  · intro tokenRec hlook hrev
    exact refresh_of_revoked db tok newTok envExpiry now2 hashFn tokenRec hlook hrev
  · intro db2 resp hok
    obtain ⟨tokenRec, _, _, hlook2⟩ :=
      refresh_ok_state db db2 tok newTok envExpiry now hashFn resp hok
    exact refresh_of_revoked db2 tok newTok2 envExpiry now2 hashFn _ hlook2 (by simp)
  · exact refresh_after_logout db tok newTok envExpiry now now2 hashFn

/-- Witness for C1 at concrete data: in a store whose record for the token
is revoked, `refresh` returns the 401 error. -/
theorem refresh_revoked_token_unauthorized_witness :
    refresh sampleDbRevoked "t0" "n1" "30d" 5 sampleHash =
      Except.error invalidRefreshError :=
  (refresh_revoked_token_unauthorized sampleDbRevoked "t0" "n1" "n2" "30d" 5 5
    sampleHash).1 sampleRevokedToken rfl (by decide)

/-- C3: both failed-login causes — unknown email and wrong password —
produce literally the same error value: message `Invalid email or password`,
status 401, so the two causes are indistinguishable to the caller. -/
theorem login_generic_unauthorized
    (db : DB) (email password newRefreshToken envExpiry : String) (now : Int)
    (hashFn : String → String) (verifyFn : String → String → Bool) :
    (userByEmail db email = none →
      login db email password newRefreshToken envExpiry now hashFn verifyFn =
        Except.error invalidCredentialsError)
    ∧ (∀ user : UserRec, userByEmail db email = some user →
        verifyFn password user.passwordHash = false →
        login db email password newRefreshToken envExpiry now hashFn verifyFn =
          Except.error invalidCredentialsError)
    ∧ invalidCredentialsError.message = "Invalid email or password"
    ∧ invalidCredentialsError.statusCode = some 401 := by
  refine ⟨?_, ?_, rfl, rfl⟩
  · intro h
    unfold login
    rw [h]
  · intro user h hv
    unfold login
    simp only [h]
    rw [if_neg (by simp [hv])]

/-- Witness for C3 at concrete data: logging in against an empty user table
yields the generic 401. -/
theorem login_generic_unauthorized_witness :
    login { users := [], tokens := [], nextId := 0 } "a@b.c" "pw" "n" "30d" 0
      sampleHash (fun p d => p == d) = Except.error invalidCredentialsError :=
  (login_generic_unauthorized { users := [], tokens := [], nextId := 0 }
    "a@b.c" "pw" "n" "30d" 0 sampleHash (fun p d => p == d)).1 rfl

/-- C4: `findRefreshToken` returns null exactly for nonexistent, expired, or
revoked rows; a connectivity error (`ECONNREFUSED`/`ETIMEDOUT`/`ENOTFOUND`)
from the read is also converted to null (fail closed), while every other
thrown error is re-thrown to the caller. -/
theorem findRefreshToken_null_spec
    (db : DB) (tokenHash : String) (now : Int) (e : JsError) :
    (findRefreshToken (Except.ok (tokenLookup db tokenHash)) now = Except.ok none ↔
      (tokenLookup db tokenHash = none ∨
        ∃ t : TokenRecord, tokenLookup db tokenHash = some t ∧
          (jsDateLt t.expiresAt now = true ∨ t.revokedAt ≠ none)))
    ∧ ((e.code = some "ECONNREFUSED" ∨ e.code = some "ETIMEDOUT" ∨
          e.code = some "ENOTFOUND") →
        findRefreshToken (Except.error e) now = Except.ok none)
    ∧ ((∀ c : String, e.code = some c →
          c ≠ "ECONNREFUSED" ∧ c ≠ "ETIMEDOUT" ∧ c ≠ "ENOTFOUND") →
        findRefreshToken (Except.error e) now = Except.error e) := by
  refine ⟨?_, ?_, ?_⟩
  · cases hlook : tokenLookup db tokenHash with
    | none => simp [findRefreshToken, filterValidToken]
    | some t =>
      unfold findRefreshToken
      constructor
      · intro hx
        injection hx with hx
        refine Or.inr ⟨t, rfl, ?_⟩
        by_cases he : jsDateLt t.expiresAt now = true
        · exact Or.inl he
        · refine Or.inr ?_
          simp only [filterValidToken, if_neg he] at hx
          by_cases hr : t.revokedAt.isSome = true
          · simpa [Option.isSome_iff_ne_none] using hr
          · rw [if_neg hr] at hx
            cases hx
      · rintro (habs | ⟨t2, ht2, hbad⟩)
        · cases habs
        · injection ht2 with ht2
          subst ht2
          rcases hbad with he | hr
          · show Except.ok (filterValidToken (some t) now) = Except.ok none
            simp [filterValidToken, he]
          · show Except.ok (filterValidToken (some t) now) = Except.ok none
            rw [filterValidToken_of_revoked t now hr]
  · intro hc
    rcases hc with h | h | h <;> simp [findRefreshToken, h]
  · intro hc
    cases hcode : e.code with
    | none => simp [findRefreshToken, hcode]
    | some c =>
      obtain ⟨h1, h2, h3⟩ := hc c hcode
      simp [findRefreshToken, hcode, h1, h2, h3]

/-- Witness for C4 at concrete data: a connection-refused read error is
converted to a null result. -/
theorem findRefreshToken_null_spec_witness :
    findRefreshToken
      (Except.error { message := "connect ECONNREFUSED", code := some "ECONNREFUSED",
                      statusCode := none }) 0 = Except.ok none :=
  (findRefreshToken_null_spec sampleDbActive "h:t0" 0
    { message := "connect ECONNREFUSED", code := some "ECONNREFUSED",
      statusCode := none }).2.1 (Or.inl rfl)

/-- A sample password verifier: plain equality of secret and digest. -/
def sampleVerify : String → String → Bool := fun p d => p == d

/-- A sample password hasher. -/
def samplePwHash : String → String := fun p => "bc:" ++ p

/-- Counterexample to C5 as stated: with an incorrect current password,
`changeUserPassword` fails with status 400, not an Unauthorized(401)-class
error, and the message is `Current password is incorrect`. -/
theorem changePassword_wrong_password_is_400 :
    changeUserPassword sampleDbActive "u1" "wrong" "newpassword456" 0
        sampleVerify samplePwHash =
      Except.error { message := "Current password is incorrect",
                     code := none, statusCode := some 400 }
    ∧ errStatus (changeUserPassword sampleDbActive "u1" "wrong" "newpassword456" 0
        sampleVerify samplePwHash) ≠ some 401 :=
  ⟨rfl, by decide⟩

/-- C5 as amended: with an incorrect current password `changeUserPassword`
fails with the status-400 error `Current password is incorrect` (a 400, not
an Unauthorized 401-class error) and changes nothing; with the correct
password it updates the stored hash and revokes every refresh token of the
user inside one transaction, after which `refresh` fails for every token of
that user. -/
theorem changePassword_revokes_all_sessions
    (db : DB) (userId currentPassword newPassword : String) (now : Int)
    (verifyFn : String → String → Bool) (hashPasswordFn : String → String) :
    (∀ user : UserRec, userById db userId = some user →
      verifyFn currentPassword user.passwordHash = false →
      changeUserPassword db userId currentPassword newPassword now verifyFn hashPasswordFn =
        Except.error { message := "Current password is incorrect",
                       code := none, statusCode := some 400 })
    ∧ (∀ (user : UserRec) (db2 : DB), userById db userId = some user →
        verifyFn currentPassword user.passwordHash = true →
        changeUserPassword db userId currentPassword newPassword now verifyFn hashPasswordFn =
          Except.ok db2 →
        (∀ u ∈ db2.users, u.id = userId → u.passwordHash = hashPasswordFn newPassword)
        ∧ (∀ t ∈ db2.tokens, t.userId = userId → t.revokedAt ≠ none)
        ∧ (∀ (tok newTok envExpiry : String) (now2 : Int) (hashFn : String → String)
            (tokenRec : TokenRecord),
            tokenLookup db2 (hashFn tok) = some tokenRec → tokenRec.userId = userId →
            refresh db2 tok newTok envExpiry now2 hashFn =
              Except.error invalidRefreshError)) := by
  constructor
  · intro user huser hv
    unfold changeUserPassword
    simp only [huser]
    rw [if_neg (by simp [hv])]
  · intro user db2 huser hv hok
    unfold changeUserPassword at hok
    simp only [huser] at hok
    rw [if_pos hv] at hok
    injection hok with hok
    have htok : ∀ t ∈ db2.tokens, t.userId = userId → t.revokedAt ≠ none := by
      intro t ht huid
      rw [← hok] at ht
      exact revokeAll_mem _ userId now t ht huid
    refine ⟨?_, htok, ?_⟩
    · intro u hu huid
      rw [← hok] at hu
      have hu2 : u ∈ (List.map (fun u : UserRec =>
          if u.id = userId then { u with passwordHash := hashPasswordFn newPassword }
          else u) db.users) := hu
      simp only [List.mem_map] at hu2
      obtain ⟨a, _, ha⟩ := hu2
      by_cases hc : a.id = userId
      · rw [if_pos hc] at ha
        rw [← ha]
      · rw [if_neg hc] at ha
        subst ha
        exact absurd huid hc
    · intro tok newTok envExpiry now2 hashFn tokenRec hlook huid
      have hmem : tokenRec ∈ db2.tokens := List.mem_of_find?_eq_some hlook
      exact refresh_of_revoked db2 tok newTok envExpiry now2 hashFn tokenRec hlook
        (htok tokenRec hmem huid)

/-- Witness for the amended C5 at concrete data: changing the password with
the correct current password revokes the stored session token. -/
theorem changePassword_revokes_all_sessions_witness :
    ∀ t ∈ (revokeAllUserTokens
      { sampleDbActive with users := [{ sampleUser with passwordHash := samplePwHash "np" }] }
      "u1" 7).tokens, t.userId = "u1" → t.revokedAt ≠ none :=
  ((changePassword_revokes_all_sessions sampleDbActive "u1" "pw1" "np" 7
      sampleVerify samplePwHash).2 sampleUser
    (revokeAllUserTokens
      { sampleDbActive with users := [{ sampleUser with passwordHash := samplePwHash "np" }] }
      "u1" 7)
    rfl rfl rfl).2.1

/-- Counterexample to C9 as stated: the TTL string `xh` ends in `h` but its
prefix is not a number, and the computed expiry is the Invalid-Date result
(`none`), not now plus 30 days. -/
theorem ttl_nan_prefix_not_thirty_days :
    getRefreshTokenExpiry "xh" 0 = none ∧
    getRefreshTokenExpiry "xh" 0 ≠ some (0 + 30 * msPerDay) :=
  ⟨rfl, by decide⟩

/-- C9 as amended: a TTL string ending in `d` (checked first) yields now plus
`parseInt` days, one ending in `h` yields now plus `parseInt` hours, and the
30-day default applies exactly to strings ending in neither `d` nor `h`; a
string ending in `d`/`h` whose prefix fails `parseInt` yields an Invalid
Date (`none`) instead of the 30-day default. -/
theorem ttl_parse_spec (envExpiry : String) (now : Int) :
    (∀ n : Int, strEndsWith envExpiry "d" = true →
      jsParseInt (strDropRight envExpiry 1) = some n →
      getRefreshTokenExpiry envExpiry now = some (now + n * msPerDay))
    ∧ (∀ n : Int, strEndsWith envExpiry "d" = false →
        strEndsWith envExpiry "h" = true →
        jsParseInt (strDropRight envExpiry 1) = some n →
        getRefreshTokenExpiry envExpiry now = some (now + n * msPerHour))
    ∧ (strEndsWith envExpiry "d" = false → strEndsWith envExpiry "h" = false →
        getRefreshTokenExpiry envExpiry now = some (now + 30 * msPerDay))
    ∧ ((strEndsWith envExpiry "d" = true ∨ strEndsWith envExpiry "h" = true) →
        jsParseInt (strDropRight envExpiry 1) = none →
        getRefreshTokenExpiry envExpiry now = none) := by
  refine ⟨?_, ?_, ?_, ?_⟩
  · intro n hd hp
    unfold getRefreshTokenExpiry
    rw [if_pos hd, hp]
    rfl
  · intro n hd hh hp
    unfold getRefreshTokenExpiry
    rw [if_neg (by simp [hd]), if_pos hh, hp]
    rfl
  · intro hd hh
    unfold getRefreshTokenExpiry
    rw [if_neg (by simp [hd]), if_neg (by simp [hh])]
  · intro hdh hp
    unfold getRefreshTokenExpiry
    rcases hdh with hd | hh
    · rw [if_pos hd, hp]
      rfl
    · by_cases hd : strEndsWith envExpiry "d" = true
      · rw [if_pos hd, hp]
        rfl
      · rw [if_neg hd, if_pos hh, hp]
        rfl

/-- Witness for the amended C9 at concrete data: `30d` yields now plus 30
days. -/
theorem ttl_parse_spec_witness :
    getRefreshTokenExpiry "30d" 100 = some (100 + 30 * msPerDay) :=
  (ttl_parse_spec "30d" 100).1 30 rfl rfl

/-- C10: `rotateRefreshToken` never checks that `oldTokenHash` refers to an
existing, still-active token: for every `oldTokenHash` whatsoever (missing
or already revoked included), as long as the user exists and the new hash is
fresh, the transaction succeeds and creates a new active token for the user
(the revoke half is an unchecked `updateMany`). -/
theorem rotate_ignores_old_hash (db : DB) (oldTokenHash newTok userId envExpiry : String)
    (now : Int) (hashFn : String → String)
    (huser : (userById db userId).isSome = true)
    (hfresh : db.tokens.any (fun t => t.tokenHash == hashFn newTok) = false) :
    ∃ (db2 : DB) (newRec : TokenRecord),
      rotateRefreshToken db oldTokenHash newTok userId envExpiry now hashFn =
        Except.ok (db2, newRec)
      ∧ newRec.userId = userId ∧ newRec.revokedAt = none
      ∧ newRec.tokenHash = hashFn newTok ∧ newRec ∈ db2.tokens := by
  refine ⟨_, _,
    rotateRefreshToken_ok db oldTokenHash newTok userId envExpiry now hashFn huser hfresh,
    rfl, rfl, rfl, ?_⟩
  simp

/-- Witness for C10 at concrete data: rotating with an `oldTokenHash` that
matches no stored token still succeeds. -/
theorem rotate_ignores_old_hash_witness :
    ∃ (db2 : DB) (newRec : TokenRecord),
      rotateRefreshToken sampleDbRevoked "no-such-hash" "n9" "u1" "30d" 50 sampleHash =
        Except.ok (db2, newRec)
      ∧ newRec.userId = "u1" ∧ newRec.revokedAt = none
      ∧ newRec.tokenHash = sampleHash "n9" ∧ newRec ∈ db2.tokens :=
  rotate_ignores_old_hash sampleDbRevoked "no-such-hash" "n9" "u1" "30d" 50 sampleHash
    rfl rfl

/-- A sample token verifier for exercising the middleware model. -/
def sampleVerifyToken : String → Option AuthUser := fun t =>
  if t == "good-token" then some { userId := "u1", email := "u1@example.com" }
  else none

/-- C6 (code bug): the committed `authMiddleware` is a TODO placeholder that
responds 401 `Unauthorized` to every request — including one carrying a
well-formed `Bearer` header whose token verifies — whereas the spec-modelled
check accepts that request and attaches the `{id, email}` payload.  (The
repository's own tests expect the spec behaviour.) -/
theorem authMiddleware_placeholder_rejects_everything :
    (∀ req : HttpRequest, authMiddleware req = MwOutcome.reject 401 "Unauthorized")
    ∧ authMiddleware { authorization := some "Bearer good-token" } =
        MwOutcome.reject 401 "Unauthorized"
    ∧ authMiddlewareSpec sampleVerifyToken { authorization := some "Bearer good-token" } =
        MwOutcome.proceed { userId := "u1", email := "u1@example.com" }
    ∧ authMiddlewareSpec sampleVerifyToken { authorization := none } =
        MwOutcome.reject 401 "Missing or invalid authorization header"
    ∧ authMiddlewareSpec sampleVerifyToken { authorization := some "Bearer bad-token" } =
        MwOutcome.reject 401 "Invalid or expired token" :=
  ⟨fun _ => rfl, rfl, rfl, rfl, rfl⟩

/-- C7: the role check is purely numeric — OWNER=3, ADMIN=2, MEMBER=1,
anything else 0 — and, for an authenticated caller with a membership, the
request is allowed exactly when the member's rank reaches the required
minimum; below the minimum it is a 403 naming both roles, and without a
membership it is the 403 `not a member` rejection. -/
theorem workspace_role_check
    (members : List WorkspaceMember) (workspaceId minRole : String) (user : AuthUser) :
    (getRoleHierarchy "OWNER" = 3 ∧ getRoleHierarchy "ADMIN" = 2 ∧
      getRoleHierarchy "MEMBER" = 1 ∧
      ∀ r : String, r ≠ "OWNER" → r ≠ "ADMIN" → r ≠ "MEMBER" → getRoleHierarchy r = 0)
    ∧ (∀ m : WorkspaceMember, memberLookup members workspaceId user.userId = some m →
        (requireWorkspaceRole members workspaceId minRole (some user) =
            RoleCheckOutcome.allow m ↔
          getRoleHierarchy minRole ≤ getRoleHierarchy m.role))
    ∧ (∀ m : WorkspaceMember, memberLookup members workspaceId user.userId = some m →
        getRoleHierarchy m.role < getRoleHierarchy minRole →
        requireWorkspaceRole members workspaceId minRole (some user) =
          RoleCheckOutcome.reject 403
            ("Forbidden: Insufficient role. Required: " ++ minRole ++
              ", Current: " ++ m.role))
    ∧ (memberLookup members workspaceId user.userId = none →
        requireWorkspaceRole members workspaceId minRole (some user) =
          RoleCheckOutcome.reject 403 "Forbidden: You are not a member of this workspace") := by
  refine ⟨⟨rfl, rfl, rfl, ?_⟩, ?_, ?_, ?_⟩
  · intro r h1 h2 h3
    unfold getRoleHierarchy
    rw [if_neg h1, if_neg h2, if_neg h3]
  · intro m hm
    unfold requireWorkspaceRole
    simp only [hm]
    by_cases hlt : getRoleHierarchy m.role < getRoleHierarchy minRole
    · rw [if_pos hlt]
      constructor
      · intro hx
        cases hx
      · intro hle
        exact absurd hlt (Nat.not_lt.mpr hle)
    · rw [if_neg hlt]
      exact ⟨fun _ => Nat.not_lt.mp hlt, fun _ => rfl⟩
  · intro m hm hlt
    unfold requireWorkspaceRole
    simp only [hm]
    rw [if_pos hlt]
  · intro hm
    unfold requireWorkspaceRole
    simp only [hm]

/-- Witness for C7 at concrete data: a MEMBER calling an ADMIN-gated action
is rejected with 403, and an OWNER calling a MEMBER-gated action is
allowed. -/
theorem workspace_role_check_witness :
    requireWorkspaceRole [{ workspaceId := "w1", userId := "m1", role := "MEMBER" }]
        "w1" "ADMIN" (some { userId := "m1", email := "m@x" }) =
      RoleCheckOutcome.reject 403
        "Forbidden: Insufficient role. Required: ADMIN, Current: MEMBER"
    ∧ requireWorkspaceRole [{ workspaceId := "w1", userId := "o1", role := "OWNER" }]
        "w1" "MEMBER" (some { userId := "o1", email := "o@x" }) =
      RoleCheckOutcome.allow { workspaceId := "w1", userId := "o1", role := "OWNER" } :=
  ⟨(workspace_role_check [{ workspaceId := "w1", userId := "m1", role := "MEMBER" }]
      "w1" "ADMIN" { userId := "m1", email := "m@x" }).2.2.1
      { workspaceId := "w1", userId := "m1", role := "MEMBER" } rfl (by decide),
    ((workspace_role_check [{ workspaceId := "w1", userId := "o1", role := "OWNER" }]
      "w1" "MEMBER" { userId := "o1", email := "o@x" }).2.1
      { workspaceId := "w1", userId := "o1", role := "OWNER" } rfl).mpr (by decide)⟩

/-- A workspace whose sole OWNER coexists with a plain MEMBER. -/
def soleOwnerMembers : List WorkspaceMember :=
  [{ workspaceId := "w1", userId := "o1", role := "OWNER" },
   { workspaceId := "w1", userId := "m1", role := "MEMBER" }]

/-- A workspace whose sole OWNER coexists with an ADMIN. -/
def ownerAdminMembers : List WorkspaceMember :=
  [{ workspaceId := "w1", userId := "o1", role := "OWNER" },
   { workspaceId := "w1", userId := "a1", role := "ADMIN" }]

/-- A workspace with two OWNERs. -/
def twoOwnerMembers : List WorkspaceMember :=
  [{ workspaceId := "w1", userId := "o1", role := "OWNER" },
   { workspaceId := "w1", userId := "o2", role := "OWNER" }]

/-- Counterexample to C8 as stated: when a MEMBER invokes removal of the
sole OWNER, the rejection is the 403 permission error, not the claimed 400 —
the permission gate fires before the owner-protection check, so the 400 does
not hold for every invoking member. -/
theorem remove_sole_owner_by_member_is_403 :
    removeMember soleOwnerMembers "w1" "o1" "m1" =
      Except.error { message := "Insufficient permissions to remove members",
                     code := none, statusCode := some 403 }
    ∧ errStatus (removeMember soleOwnerMembers "w1" "o1" "m1") ≠ some 400
    ∧ ownerCount soleOwnerMembers "w1" = 1 :=
  ⟨rfl, by decide, rfl⟩

/-- C8 as amended: removing or downgrading the sole OWNER of a workspace is
rejected with 400 for every invoker that passes the ADMIN-or-higher
permission gate (an ADMIN or an OWNER, the sole OWNER themself included);
an invoker below ADMIN is rejected with 403 before the owner check; and
removing one of two OWNERs by the other OWNER succeeds. -/
theorem sole_owner_protected
    (members : List WorkspaceMember)
    (workspaceId targetUserId removerId updaterId newRole : String) :
    (∀ rm tm : WorkspaceMember,
        memberLookup members workspaceId removerId = some rm →
        getRoleHierarchy "ADMIN" ≤ getRoleHierarchy rm.role →
        memberLookup members workspaceId targetUserId = some tm →
        tm.role = "OWNER" → ownerCount members workspaceId = 1 →
        errStatus (removeMember members workspaceId targetUserId removerId) = some 400)
    ∧ (∀ um tm : WorkspaceMember,
        memberLookup members workspaceId updaterId = some um →
        getRoleHierarchy "ADMIN" ≤ getRoleHierarchy um.role →
        memberLookup members workspaceId targetUserId = some tm →
        tm.role = "OWNER" → newRole ≠ "OWNER" → ownerCount members workspaceId = 1 →
        errStatus (updateMemberRole members workspaceId targetUserId newRole updaterId) =
          some 400)
    ∧ (∀ rm : WorkspaceMember,
        memberLookup members workspaceId removerId = some rm →
        getRoleHierarchy rm.role < getRoleHierarchy "ADMIN" →
        errStatus (removeMember members workspaceId targetUserId removerId) = some 403)
    ∧ removeMember twoOwnerMembers "w1" "o1" "o2" =
        Except.ok [{ workspaceId := "w1", userId := "o2", role := "OWNER" }] := by
  refine ⟨?_, ?_, ?_, rfl⟩
  · intro rm tm hrm hra htm htrole hcount
    unfold removeMember
    simp only [hrm]
    rw [if_neg (Nat.not_lt.mpr hra)]
    simp only [htm]
    by_cases hself : targetUserId = removerId ∧ tm.role = "OWNER"
    · rw [if_pos hself]
      rfl
    · rw [if_neg hself, if_pos ⟨htrole, hcount⟩]
      rfl
  · intro um tm hum hua htm htrole hnew hcount
    unfold updateMemberRole
    simp only [hum]
    rw [if_neg (Nat.not_lt.mpr hua)]
    simp only [htm]
    rw [if_pos ⟨htrole, hnew⟩]
    rfl
  · intro rm hrm hlt
    unfold removeMember
    simp only [hrm]
    rw [if_pos hlt]
    rfl

/-- Witness for the amended C8 at concrete data: an ADMIN removing the sole
OWNER and an ADMIN downgrading the sole OWNER are both rejected with 400. -/
theorem sole_owner_protected_witness :
    errStatus (removeMember ownerAdminMembers "w1" "o1" "a1") = some 400
    ∧ errStatus (updateMemberRole ownerAdminMembers "w1" "o1" "MEMBER" "a1") = some 400 :=
  ⟨(sole_owner_protected ownerAdminMembers "w1" "o1" "a1" "a1" "MEMBER").1
      { workspaceId := "w1", userId := "a1", role := "ADMIN" }
      { workspaceId := "w1", userId := "o1", role := "OWNER" }
      rfl (by decide) rfl rfl rfl,
    (sole_owner_protected ownerAdminMembers "w1" "o1" "a1" "a1" "MEMBER").2.1
      { workspaceId := "w1", userId := "a1", role := "ADMIN" }
      { workspaceId := "w1", userId := "o1", role := "OWNER" }
      rfl (by decide) rfl rfl (by decide) rfl⟩

/-- Unfolding equation: a `true` schedule entry steps call `a`. -/
theorem runSchedule_cons_true (envExpiry : String) (now : Int) (hashFn : String → String)
    (rest : List Bool) (db : DB) (a b : RefreshCall) :
    runSchedule envExpiry now hashFn (true :: rest) db a b =
      runSchedule envExpiry now hashFn rest
        (stepRefreshCall db a envExpiry now hashFn).1
        (stepRefreshCall db a envExpiry now hashFn).2 b := rfl

/-- Unfolding equation: a `false` schedule entry steps call `b`. -/
theorem runSchedule_cons_false (envExpiry : String) (now : Int) (hashFn : String → String)
    (rest : List Bool) (db : DB) (a b : RefreshCall) :
    runSchedule envExpiry now hashFn (false :: rest) db a b =
      runSchedule envExpiry now hashFn rest
        (stepRefreshCall db b envExpiry now hashFn).1 a
        (stepRefreshCall db b envExpiry now hashFn).2 := rfl

/-- Unfolding equation: the empty schedule returns the state. -/
theorem runSchedule_nil (envExpiry : String) (now : Int) (hashFn : String → String)
    (db : DB) (a b : RefreshCall) :
    runSchedule envExpiry now hashFn [] db a b = (db, a, b) := rfl

/-- A finished call is not stepped again. -/
theorem stepRefreshCall_finished (db : DB) (rt nt envExpiry : String) (now : Int)
    (hashFn : String → String) (res : Except JsError RefreshResponse) :
    stepRefreshCall db
        { refreshToken := rt, newRefreshToken := nt, phase := RefreshPhase.finished res }
        envExpiry now hashFn =
      (db, { refreshToken := rt, newRefreshToken := nt,
             phase := RefreshPhase.finished res }) := rfl

/-- The two concurrent `refresh` calls used by the C2 analysis. -/
def raceCallA : RefreshCall :=
  { refreshToken := "t0", newRefreshToken := "nA", phase := RefreshPhase.start }

/-- See `raceCallA`. -/
def raceCallB : RefreshCall :=
  { refreshToken := "t0", newRefreshToken := "nB", phase := RefreshPhase.start }

/-- Counterexample to C2 as stated: under the interleaving in which both
calls perform their (untransacted) lookup before either rotation commits —
schedule A-lookup, B-lookup, A-rotate, B-rotate — both concurrent `refresh`
calls on the same token succeed, because `rotateRefreshToken` never
re-checks the old token inside the transaction. -/
theorem concurrent_refresh_both_succeed :
    callSucceeded (runSchedule "30d" 0 sampleHash [true, false, true, false]
      sampleDbActive raceCallA raceCallB).2.1 = true
    ∧ callSucceeded (runSchedule "30d" 0 sampleHash [true, false, true, false]
      sampleDbActive raceCallA raceCallB).2.2 = true :=
  ⟨rfl, rfl⟩

/-- C2 as amended: exactly one of two concurrent `refresh` calls presenting
the same token succeeds *provided the winner's rotation transaction commits
before the loser's lookup runs* (schedule A-lookup, A-rotate, B-lookup,
B-rotate): the revoke-then-create transaction marks the old row revoked and
the loser's lookup then filters it out, failing with 401.  Without that
ordering the guarantee does not hold (see the counterexample). -/
theorem concurrent_refresh_serialized_exactly_one
    (db : DB) (tok newA newB envExpiry : String) (now : Int)
    (hashFn : String → String) (tokenRec : TokenRecord) (user : UserRec)
    (hlook : tokenLookup db (hashFn tok) = some tokenRec)
    (hexp : jsDateLt tokenRec.expiresAt now = false)
    (hrev : tokenRec.revokedAt = none)
    (huser : userById db tokenRec.userId = some user)
    (hfreshA : db.tokens.any (fun t => t.tokenHash == hashFn newA) = false) :
    callSucceeded (runSchedule envExpiry now hashFn [true, true, false, false] db
        { refreshToken := tok, newRefreshToken := newA, phase := RefreshPhase.start }
        { refreshToken := tok, newRefreshToken := newB, phase := RefreshPhase.start }).2.1
      = true
    ∧ callSucceeded (runSchedule envExpiry now hashFn [true, true, false, false] db
        { refreshToken := tok, newRefreshToken := newA, phase := RefreshPhase.start }
        { refreshToken := tok, newRefreshToken := newB, phase := RefreshPhase.start }).2.2
      = false
    ∧ callFailedWith (runSchedule envExpiry now hashFn [true, true, false, false] db
        { refreshToken := tok, newRefreshToken := newA, phase := RefreshPhase.start }
        { refreshToken := tok, newRefreshToken := newB, phase := RefreshPhase.start }).2.2
        401
      = true := by
  have hfv : filterValidToken (tokenLookup db (hashFn tok)) now = some tokenRec :=
    (filterValidToken_eq_some _ now tokenRec).mpr ⟨hlook, hexp, hrev⟩
  have hhash : tokenRec.tokenHash = hashFn tok := by
    have := List.find?_some hlook
    simpa using this
  have hid : user.id = tokenRec.userId := by
    have := List.find?_some huser
    simpa using this
  have huser2 : (userById db user.id).isSome = true := by
    rw [hid, huser]
    rfl
  have hrotok := rotateRefreshToken_ok db (hashFn tok) newA user.id envExpiry now hashFn
    huser2 hfreshA
  have h1 : findRefreshToken (Except.ok (tokenLookup db (hashFn tok))) now =
      Except.ok (some tokenRec) := by
    show Except.ok (filterValidToken (tokenLookup db (hashFn tok)) now) = _
    rw [hfv]
  have stepA1 : stepRefreshCall db
      { refreshToken := tok, newRefreshToken := newA, phase := RefreshPhase.start }
      envExpiry now hashFn =
      (db, { refreshToken := tok, newRefreshToken := newA,
             phase := RefreshPhase.ready tokenRec user }) := by
    unfold stepRefreshCall
    simp only [h1, huser]
  have stepA2 : stepRefreshCall db
      { refreshToken := tok, newRefreshToken := newA,
        phase := RefreshPhase.ready tokenRec user }
      envExpiry now hashFn =
      ({ revokeRefreshToken db (hashFn tok) now with
          tokens := (revokeRefreshToken db (hashFn tok) now).tokens ++
            [{ id := db.nextId, userId := user.id, tokenHash := hashFn newA,
                expiresAt := getRefreshTokenExpiry envExpiry now, revokedAt := none }],
          nextId := db.nextId + 1 },
        { refreshToken := tok, newRefreshToken := newA,
          phase := RefreshPhase.finished (Except.ok
            { accessToken := generateAccessToken user.id user.email,
              refreshToken := newA }) }) := by
    unfold stepRefreshCall
    simp only [hrotok]
  have hlookL : List.find? (fun t => t.tokenHash == hashFn tok) db.tokens =
      some tokenRec := hlook
  have hfirst : (revokeRefreshToken db (hashFn tok) now).tokens.find?
      (fun t => t.tokenHash == hashFn tok) =
      some { tokenRec with revokedAt := some now } := by
    have hrw := tokenLookup_revoke db (hashFn tok) (hashFn tok) now
    unfold tokenLookup at hrw
    rw [hrw, hlookL]
    simp [hhash, hrev]
  have hlook2 : tokenLookup
      { revokeRefreshToken db (hashFn tok) now with
        tokens := (revokeRefreshToken db (hashFn tok) now).tokens ++
          [{ id := db.nextId, userId := user.id, tokenHash := hashFn newA,
              expiresAt := getRefreshTokenExpiry envExpiry now, revokedAt := none }],
        nextId := db.nextId + 1 } (hashFn tok) =
      some { tokenRec with revokedAt := some now } := by
    show ((revokeRefreshToken db (hashFn tok) now).tokens ++
        [({ id := db.nextId, userId := user.id, tokenHash := hashFn newA,
            expiresAt := getRefreshTokenExpiry envExpiry now,
            revokedAt := none } : TokenRecord)]).find?
        (fun t : TokenRecord => t.tokenHash == hashFn tok) =
      some { tokenRec with revokedAt := some now }
    rw [List.find?_append, hfirst]
    rfl
  have h2 : findRefreshToken (Except.ok (tokenLookup
      { revokeRefreshToken db (hashFn tok) now with
        tokens := (revokeRefreshToken db (hashFn tok) now).tokens ++
          [{ id := db.nextId, userId := user.id, tokenHash := hashFn newA,
              expiresAt := getRefreshTokenExpiry envExpiry now, revokedAt := none }],
        nextId := db.nextId + 1 } (hashFn tok))) now = Except.ok none := by
    rw [hlook2]
    show Except.ok (filterValidToken (some { tokenRec with revokedAt := some now }) now) = _
    rw [filterValidToken_of_revoked _ now (by simp)]
  have stepB1 : stepRefreshCall
      { revokeRefreshToken db (hashFn tok) now with
        tokens := (revokeRefreshToken db (hashFn tok) now).tokens ++
          [{ id := db.nextId, userId := user.id, tokenHash := hashFn newA,
              expiresAt := getRefreshTokenExpiry envExpiry now, revokedAt := none }],
        nextId := db.nextId + 1 }
      { refreshToken := tok, newRefreshToken := newB, phase := RefreshPhase.start }
      envExpiry now hashFn =
      ({ revokeRefreshToken db (hashFn tok) now with
          tokens := (revokeRefreshToken db (hashFn tok) now).tokens ++
            [{ id := db.nextId, userId := user.id, tokenHash := hashFn newA,
                expiresAt := getRefreshTokenExpiry envExpiry now, revokedAt := none }],
          nextId := db.nextId + 1 },
        { refreshToken := tok, newRefreshToken := newB,
          phase := RefreshPhase.finished (Except.error invalidRefreshError) }) := by
    unfold stepRefreshCall
    simp only [h2]
  have hrun : runSchedule envExpiry now hashFn [true, true, false, false] db
      { refreshToken := tok, newRefreshToken := newA, phase := RefreshPhase.start }
      { refreshToken := tok, newRefreshToken := newB, phase := RefreshPhase.start } =
      ({ revokeRefreshToken db (hashFn tok) now with
          tokens := (revokeRefreshToken db (hashFn tok) now).tokens ++
            [{ id := db.nextId, userId := user.id, tokenHash := hashFn newA,
                expiresAt := getRefreshTokenExpiry envExpiry now, revokedAt := none }],
          nextId := db.nextId + 1 },
        { refreshToken := tok, newRefreshToken := newA,
          phase := RefreshPhase.finished (Except.ok
            { accessToken := generateAccessToken user.id user.email,
              refreshToken := newA }) },
        { refreshToken := tok, newRefreshToken := newB,
          phase := RefreshPhase.finished (Except.error invalidRefreshError) }) := by
    rw [runSchedule_cons_true, stepA1]
    rw [runSchedule_cons_true]
    simp only [stepA2]
    rw [runSchedule_cons_false]
    simp only [stepB1]
    rw [runSchedule_cons_false]
    simp only [stepRefreshCall_finished]
    rw [runSchedule_nil]
  rw [hrun]
  exact ⟨rfl, rfl, rfl⟩

/-- Witness for the amended C2 at concrete data: under the serialized
schedule, the first call succeeds and the second fails with 401. -/
theorem concurrent_refresh_serialized_exactly_one_witness :
    callSucceeded (runSchedule "30d" 0 sampleHash [true, true, false, false]
      sampleDbActive raceCallA raceCallB).2.1 = true
    ∧ callSucceeded (runSchedule "30d" 0 sampleHash [true, true, false, false]
      sampleDbActive raceCallA raceCallB).2.2 = false
    ∧ callFailedWith (runSchedule "30d" 0 sampleHash [true, true, false, false]
      sampleDbActive raceCallA raceCallB).2.2 401 = true :=
  concurrent_refresh_serialized_exactly_one sampleDbActive "t0" "nA" "nB" "30d" 0
    sampleHash sampleActiveToken sampleUser rfl rfl rfl rfl rfl

end LineTodo
